import Mathlib

/-!
Shallow embedding of the ORM layer in `www/orm.py`: the model metaclass and
its SQL template construction, the query executor, and the model instance
operations, together with theorems checking the specified properties.

The aiomysql pool and driver are external collaborators; following the
design they are modelled as a capability (acquire connection, begin,
run statement, commit, rollback, release) whose outcomes are supplied by a
driver record, and each executor run is reflected as a trace of events.
-/

namespace Orm

/-- Python runtime values as they appear in model fields and SQL arguments.
`null` is Python `None`. -/
inductive Value
  | null
  | str (s : String)
  | int (n : Int)
  | bool (b : Bool)
deriving DecidableEq

/-- Python `repr` of a value, as used when a list is turned into text. -/
def pyRepr : Value → String
  | .null => "None"
  | .str s => "\x27" ++ s ++ "\x27"
  | .int n => toString n
  | .bool true => "True"
  | .bool false => "False"

/-- Python `str` of a list of values (elements rendered with `repr`). -/
def pyStrList (vs : List Value) : String :=
  "[" ++ String.intercalate ", " (vs.map pyRepr) ++ "]"

/-- Association-list lookup, modelling a Python dictionary read. -/
def alistGet {α : Type} : List (String × α) → String → Option α
  | [], _ => Option.none
  | (k0, v0) :: rest, k => if k0 = k then some v0 else alistGet rest k

/-- Exceptions that can cross the executor boundary. The TypeError variants
are the CPython errors for percent-formatting with the wrong number of
values and for calling a function without a required positional argument;
statement and operational errors come from the database driver. -/
inductive Exc
  | typeErrorNotEnoughArgs
  | typeErrorNotAllConverted
  | typeErrorMissingArgument
  | statementError (n : Nat)
  | operationalError (n : Nat)
deriving DecidableEq

/-- Split a character list at each (non-overlapping, leftmost-first)
occurrence of the two-character specifier `%s`. -/
def splitPctS : List Char → List (List Char)
  | [] => [[]]
  | '%' :: 's' :: rest => [] :: splitPctS rest
  | c :: rest =>
    match splitPctS rest with
    | p :: ps => (c :: p) :: ps
    | [] => [[c]]

/-- The pieces of a format string around its percent-s specifiers. -/
def splitOnPctS (fmt : String) : List String :=
  (splitPctS fmt.data).map (fun cs => ⟨cs⟩)

/-- Number of percent-s conversion specifiers in a format string. -/
def countSpecifiers (fmt : String) : Nat := (splitOnPctS fmt).length - 1

/-- Interleave the pieces of a split format string with rendered values. -/
def pySubst : List String → List String → String
  | p :: ps, v :: vs => p ++ v ++ pySubst ps vs
  | p :: _, [] => p
  | [], _ => ""

/-- Python percent-formatting `fmt % args` where `args` is a list, as
written on line 77 of orm.py. A list operand (unlike a tuple) counts as a
single conversion value: with exactly one specifier the whole list is
rendered into the text; with two or more the second specifier finds no
value and raises TypeError; and with zero specifiers the text is returned
UNCHANGED — a list passes the CPython mapping check, so the
unconsumed-argument TypeError is skipped and the arguments are silently
dropped. -/
def pyFormatList (fmt : String) (args : List Value) : Except Exc String :=
  let n := countSpecifiers fmt
  if n = 1 then .ok (pySubst (splitOnPctS fmt) [pyStrList args])
  else if n = 0 then .ok fmt
  else .error .typeErrorNotEnoughArgs

/-- Python percent-formatting with a tuple operand: one value per specifier,
values pre-rendered with `str`; a count mismatch raises TypeError. -/
def pyFormatTuple (fmt : String) (vals : List String) : Except Exc String :=
  let n := countSpecifiers fmt
  if vals.length < n then .error .typeErrorNotEnoughArgs
  else if n < vals.length then .error .typeErrorNotAllConverted
  else .ok (pySubst (splitOnPctS fmt) vals)

/-- Replace every question mark by a percent-s specifier. -/
def replaceQChars : List Char → List Char
  | [] => []
  | c :: rest =>
    if c = '?' then '%' :: 's' :: replaceQChars rest
    else c :: replaceQChars rest

/-- `sql.replace("?", "%s")`: the placeholder translation applied before
every statement is sent. -/
def replaceQ (sql : String) : String := ⟨replaceQChars sql.data⟩

/-- Observable events on the pooled connection. `stmt` records the
statement text sent to the driver together with the bound parameters handed
alongside it (`Option.none` when no parameter collection is passed). -/
inductive Ev
  | acquire
  | beginTx
  | stmt (text : String) (params : Option (List Value))
  | commit
  | rollback
  | release
deriving DecidableEq

/-- Outcomes of the driver capability for one `execute` run. A `some`
exception means the corresponding call raises. -/
structure Driver where
  beginExc : Option Exc
  stmtRes : Except Exc Nat
  commitExc : Option Exc
  rollbackExc : Option Exc

/-- The protected block of `execute` (orm.py lines 75-81): format the
statement text, send it with NO bound parameters — line 77 reads
`cursor.execute(sql.replace(...) % args or ())`, so the arguments are
percent-formatted into the text and only one argument reaches the driver —
read the affected row count, and commit when not autocommitting. -/
def tryBody (sql : String) (args : List Value) (autocommit : Bool) (d : Driver) :
    List Ev × Except Exc Nat :=
  match pyFormatList (replaceQ sql) args with
  | .error e => ([], .error e)
  | .ok text =>
    match d.stmtRes with
    | .error e => ([Ev.stmt text Option.none], .error e)
    | .ok affected =>
      if autocommit then ([Ev.stmt text Option.none], .ok affected)
      else
        match d.commitExc with
        | some e => ([Ev.stmt text Option.none, Ev.commit], .error e)
        | _ => ([Ev.stmt text Option.none, Ev.commit], .ok affected)

/-- `execute(sql, args, autocommit)` (orm.py lines 63-87). The pool scope
acquires first and releases on every path; `conn.begin()` runs before the
protected block, so a begin failure propagates without rollback; a failure
inside the protected block triggers `conn.rollback()` followed by a bare
re-raise when not autocommitting, and an exception from the rollback call
itself replaces the original one. -/
def executeRun (sql : String) (args : List Value) (autocommit : Bool) (d : Driver) :
    List Ev × Except Exc Nat :=
  if autocommit then
    let body := tryBody sql args true d
    (Ev.acquire :: (body.1 ++ [Ev.release]), body.2)
  else
    match d.beginExc with
    | some e => ([Ev.acquire, Ev.beginTx, Ev.release], .error e)
    | _ =>
      let body := tryBody sql args false d
      match body.2 with
      | .ok n => (Ev.acquire :: Ev.beginTx :: (body.1 ++ [Ev.release]), .ok n)
      | .error e =>
        match d.rollbackExc with
        | some r2 =>
          (Ev.acquire :: Ev.beginTx :: (body.1 ++ [Ev.rollback, Ev.release]), .error r2)
        | _ =>
          (Ev.acquire :: Ev.beginTx :: (body.1 ++ [Ev.rollback, Ev.release]), .error e)

/-- A result row: column name to value. -/
abbrev Row := List (String × Value)

/-- Driver outcome for one `select` run: the bound statement either fails
or yields rows. -/
structure SelectDriver where
  stmtRes : Except Exc (List Row)

/-- `select(sql, args, size)` (orm.py lines 41-60): placeholders are
translated and `args or ()` is handed to the driver as bound parameters
next to the text (line 53); `fetchmany(size)` is used when `size` is
truthy, else `fetchall()`. No validation of the argument count happens on
the client side. -/
def selectRun (sql : String) (args : Option (List Value)) (size : Option Nat)
    (d : SelectDriver) : List Ev × Except Exc (List Row) :=
  let call := Ev.stmt (replaceQ sql) (some (args.getD []))
  match d.stmtRes with
  | .error e => ([Ev.acquire, call, Ev.release], .error e)
  | .ok rs =>
    let kept := match size with
      | some n => if n = 0 then rs else rs.take n
      | _ => rs
    ([Ev.acquire, call, Ev.release], .ok kept)

/-- A default source: a literal value or a zero-argument callable. An
absent default (Python `None`) is `Option.none` at the `Field.default`
site. -/
inductive DefaultVal
  | lit (v : Value)
  | callable (f : Unit → Value)

/-- `Field` (orm.py lines 102-114): column name, SQL column type,
primary-key flag, default source. -/
structure Field where
  name : Option String
  column_type : String
  primary_key : Bool
  default : Option DefaultVal

/-- `StringField(name, primary_key, default, ddl)` (orm.py line 117). -/
def StringField (name : Option String) (primary_key : Bool)
    (default : Option DefaultVal) (ddl : String) : Field :=
  ⟨name, ddl, primary_key, default⟩

/-- `BooleanField(name, default)` (orm.py line 125); never a primary key. -/
def BooleanField (name : Option String) (default : Option DefaultVal) : Field :=
  ⟨name, "boolean", false, default⟩

/-- `IntegerField(name, column_type, primary_key, default)` (line 133). -/
def IntegerField (name : Option String) (column_type : String)
    (primary_key : Bool) (default : Option DefaultVal) : Field :=
  ⟨name, column_type, primary_key, default⟩

/-- A value in a class attribute dictionary: a string, a `Field`, or any
other attribute (methods, module metadata, and so on). -/
inductive PyObj
  | str (s : String)
  | field (f : Field)
  | other

/-- `isinstance(x, Field)`. -/
def isFieldInstance : PyObj → Bool
  | .field _ => true
  | _ => false

/-- Exceptions raised by `ModelMetaclass.__new__`. In the source both are
raised as `BaseException`, with messages `Duplicate primary key for
field: ...` and `Primary key not found.`; `attributeError` stands for the
attribute error that reading `v.primary_key` from a non-Field would
raise. -/
inductive SchemaExc
  | duplicatePrimaryKey (field : String)
  | primaryKeyNotFound
  | attributeError
deriving DecidableEq

/-- `create_args_string(num)` (orm.py lines 90-99): `num` placeholders
joined by a comma and a space. -/
def create_args_string (num : Nat) : String :=
  String.intercalate ", " (List.replicate num "?")

/-- Column name used in the update template (line 194):
`mappings.get(f).name or f`, with Python falsiness of the empty string.
(When `f` is not in the mappings the source would fail reading `.name`;
the metaclass only calls this for mapped non-key fields.) -/
def updateColumnName (mappings : List (String × Field)) (f : String) : String :=
  match alistGet mappings f with
  | some fd =>
    match fd.name with
    | some s => if s = "" then f else s
    | _ => f
  | _ => f

/-- The select template of line 192: note the joined, already-backticked
field list is wrapped in one more pair of backticks. -/
def buildSelect (primaryKey : String) (fields : List String) (tableName : String) : String :=
  let fields_str := String.intercalate ", " (fields.map fun f => "`" ++ f ++ "`")
  "select `" ++ primaryKey ++ "`, `" ++ fields_str ++ "` from `" ++ tableName ++ "`"

/-- The insert template of line 193, with the same extra backtick wrapping
around the joined field list and around the primary key. -/
def buildInsert (tableName : String) (fields : List String) (primaryKey : String) : String :=
  let escaped_fields := fields.map fun f => "`" ++ f ++ "`"
  let fields_str := String.intercalate ", " escaped_fields
  "insert into `" ++ tableName ++ "` (`" ++ fields_str ++ "`, `" ++ primaryKey ++
    "`) value (" ++ create_args_string (escaped_fields.length + 1) ++ ")"

/-- The update template of line 194. -/
def buildUpdate (tableName : String) (mappings : List (String × Field))
    (fields : List String) (primaryKey : String) : String :=
  let setList := String.intercalate ", "
    (fields.map fun f => "`" ++ updateColumnName mappings f ++ "`=?")
  "update `" ++ tableName ++ "` set " ++ setList ++ " where `" ++ primaryKey ++ "`=?"

/-- The delete template of line 195. -/
def buildDelete (tableName : String) (primaryKey : String) : String :=
  "delete from `" ++ tableName ++ "` where `" ++ primaryKey ++ "`=?"

/-- Derived schema metadata attached to a model type by the metaclass:
`__table__`, `__primary_key__`, `__fields__`, `__mappings__` and the four
templates `__select__`, `__insert__`, `__update__`, `__delete__`. -/
structure ModelClass where
  table : String
  primaryKey : String
  fields : List String
  mappings : List (String × Field)
  selectTpl : String
  insertTpl : String
  updateTpl : String
  deleteTpl : String

/-- Result of `ModelMetaclass.__new__`: the plain pass-through for the
`Model` base class itself, or a mapped model type. -/
inductive NewClassResult
  | plainModel
  | mapped (c : ModelClass)

/-- The field-collection loop of `ModelMetaclass.__new__` (lines 170-179).
The source tests `isinstance(k, Field)` on the iteration variable `k`,
which is the attribute NAME and always a `str` — hence
`isFieldInstance (PyObj.str k)` here. Inside the branch the source reads
`v.primary_key`, which presumes `v` is a `Field`. -/
def collectFields : List (String × PyObj) → List (String × Field) → List String →
    Option String → Except SchemaExc (List (String × Field) × List String × Option String)
  | [], mappings, fields, primaryKey => .ok (mappings, fields, primaryKey)
  | (k, v) :: rest, mappings, fields, primaryKey =>
    if isFieldInstance (PyObj.str k) then
      match v with
      | .field f =>
        if f.primary_key then
          match primaryKey with
          | some _ => .error (.duplicatePrimaryKey k)
          | _ => collectFields rest (mappings ++ [(k, f)]) fields (some k)
        else collectFields rest (mappings ++ [(k, f)]) (fields ++ [k]) primaryKey
      | _ => .error .attributeError
    else collectFields rest mappings fields primaryKey

/-- `ModelMetaclass.__new__` (orm.py lines 160-196): pass `Model` through,
resolve the table name from `__table__` (falling back to the class name,
also on an empty string, by Python falsiness), run the collection loop,
reject a missing primary key, and otherwise attach the metadata with the
four prebuilt templates. The removal of collected field attributes from the
class namespace (lines 183-184) does not affect the derived metadata and is
not modelled. -/
def modelMetaclassNew (name : String) (attrs : List (String × PyObj)) :
    Except SchemaExc NewClassResult :=
  if name = "Model" then .ok NewClassResult.plainModel
  else
    let tableName := match alistGet attrs "__table__" with
      | some (PyObj.str s) => if s = "" then name else s
      | _ => name
    match collectFields attrs [] [] Option.none with
    | .error e => .error e
    | .ok (mappings, fields, pkOpt) =>
      match pkOpt with
      | Option.none => .error SchemaExc.primaryKeyNotFound
      | some primaryKey =>
        .ok (NewClassResult.mapped
          ⟨tableName, primaryKey, fields, mappings,
            buildSelect primaryKey fields tableName,
            buildInsert tableName fields primaryKey,
            buildUpdate tableName mappings fields primaryKey,
            buildDelete tableName primaryKey⟩)

/-- A model instance: its dictionary of stored field values. -/
abbrev Inst := List (String × Value)

/-- The per-type field mappings `__mappings__`. -/
abbrev Mappings := List (String × Field)

/-- Dictionary update `self[k] = v`: replace an existing key, else append. -/
def dictSet : Inst → String → Value → Inst
  | [], k, v => [(k, v)]
  | (k0, v0) :: rest, k, v =>
    if k0 = k then (k, v) :: rest else (k0, v0) :: dictSet rest k v

/-- `Model.__getattr__` (orm.py lines 205-210): return `self[key]`, or
raise `AttributeError` with the quoted message when the key is absent. -/
def modelGetattr (inst : Inst) (key : String) : Except String Value :=
  match alistGet inst key with
  | some v => .ok v
  | _ => .error ("\x27Model\x27 object has no attribute \x27" ++ key ++ "\x27")

/-- `getattr(self, key, None)`: the three-argument form returns the default
instead of propagating the attribute error. -/
def pyGetattrOrNone (inst : Inst) (key : String) : Value :=
  match modelGetattr inst key with
  | .ok v => v
  | .error _ => Value.null

/-- `Model.getValue` (orm.py lines 216-218). -/
def getValue (inst : Inst) (key : String) : Value := pyGetattrOrNone inst key

/-- `Model.getValueOrDefault` (orm.py lines 220-230). The returned triple
is the updated instance dictionary, the returned value, and how many times
a callable default was invoked during the call; a missing mappings key is
the dictionary KeyError. -/
def getValueOrDefault (mp : Mappings) (inst : Inst) (key : String) :
    Except String (Inst × Value × Nat) :=
  let value := pyGetattrOrNone inst key
  if value = Value.null then
    match alistGet mp key with
    | some field =>
      match field.default with
      | some (DefaultVal.lit v) => .ok (dictSet inst key v, v, 0)
      | some (DefaultVal.callable f) => .ok (dictSet inst key (f ()), f (), 1)
      | _ => .ok (inst, Value.null, 0)
    | _ => .error key
  else .ok (inst, value, 0)

/-- `Model.find` (orm.py lines 276-282). Line 279 builds the statement as
`select('%s where `%s`=?' % (cls.__select__, cls.__primary_key__, [pk], 1))`:
a tuple of four values for a format string with two specifiers, and
`select` invoked with a single argument. When the formatting (the first
defect) is reached it raises TypeError; had it succeeded, the call to
`select` would be missing its required `args` parameter. -/
def findRun (selectTpl : String) (pkName : String) (pk : Value) :
    Except Exc (Option Inst) :=
  match pyFormatTuple "%s where `%s`=?" [selectTpl, pkName, pyStrList [pk], "1"] with
  | .error e => .error e
  | .ok _ => .error Exc.typeErrorMissingArgument

/-- Stand-in for `Models.next_id`, whose concrete value is time- and
uuid-dependent; only its callability matters to the properties below. -/
def nextIdStandIn : Unit → Value := fun _ => Value.str "0016000000000000generatedid000"

/-- `id = StringField(primary_key=True, default=next_id, ddl=varchar(50))`. -/
def idField : Field :=
  StringField Option.none true (some (DefaultVal.callable nextIdStandIn)) "varchar(50)"

/-- `email = StringField(ddl=varchar(50))`: no default. -/
def emailField : Field := StringField Option.none false Option.none "varchar(50)"

/-- `admin = BooleanField()`: literal default `False`. -/
def adminField : Field := BooleanField Option.none (some (DefaultVal.lit (Value.bool false)))

/-- The attribute dictionary of the specified User model declaration
(table `users`, non-key fields `email` and `admin`, primary key `id`), in
declaration order, with the usual non-field class attributes. -/
def userAttrs : List (String × PyObj) :=
  [("__module__", PyObj.other), ("__qualname__", PyObj.other),
   ("__table__", PyObj.str "users"),
   ("id", PyObj.field idField), ("email", PyObj.field emailField),
   ("admin", PyObj.field adminField)]

/-- A declaration with two primary-key fields. -/
def twoPkAttrs : List (String × PyObj) :=
  [("a", PyObj.field (StringField Option.none true Option.none "varchar(50)")),
   ("b", PyObj.field (IntegerField Option.none "bigint" true
      (some (DefaultVal.lit (Value.int 0)))))]

/-- A declaration with zero primary-key fields. -/
def zeroPkAttrs : List (String × PyObj) := [("x", PyObj.field emailField)]

/-- A driver on which every call succeeds and the statement affects one
row. -/
def dOk : Driver := ⟨Option.none, Except.ok 1, Option.none, Option.none⟩

/-- A select driver that returns no rows. -/
def selOk : SelectDriver := ⟨Except.ok []⟩

/-- C1: the specified property is that for every model type with exactly
one primary-key field the schema derivation succeeds and stores the four
templates over the declared columns. On the source this fails: line 171
tests `isinstance(k, Field)` on the attribute NAME `k` (a string), so the
loop collects no field at all and even the well-formed User declaration is
rejected with `Primary key not found.`; no template is ever stored. -/
theorem c1_schema_derivation_always_raises :
    modelMetaclassNew "User" userAttrs = Except.error SchemaExc.primaryKeyNotFound := rfl

/-- C2: the specified property is that `execute` hands the argument values
to the driver as bound parameters and never formats them into the SQL text.
On the source this fails: line 77 runs
`cursor.execute(sql.replace(..) % args or ())`, so for the concrete delete
statement the driver receives the text with the argument list rendered into
it and NO bound parameters, while `select` (line 53) binds properly. -/
theorem c2_execute_formats_args_into_sql :
    executeRun "delete from `users` where `id`=?" [Value.str "a1"] true dOk =
      ([Ev.acquire,
        Ev.stmt "delete from `users` where `id`=[\x27a1\x27]" Option.none,
        Ev.release], Except.ok 1) ∧
    selectRun "select `email` from `users` where `id`=?" (some [Value.str "a1"])
        Option.none selOk =
      ([Ev.acquire,
        Ev.stmt "select `email` from `users` where `id`=%s" (some [Value.str "a1"]),
        Ev.release], Except.ok []) :=
  ⟨rfl, rfl⟩

/-- C3: the specified property is that zero primary keys raise a missing
primary key error and two primary keys raise a duplicate primary key error.
On the source the duplicate branch (line 176) is unreachable — the
`isinstance` test on the key never succeeds — so BOTH declarations raise
`Primary key not found.` and no duplicate error is ever produced. -/
theorem c3_duplicate_pk_not_reported :
    modelMetaclassNew "Pair" twoPkAttrs = Except.error SchemaExc.primaryKeyNotFound ∧
    modelMetaclassNew "Bare" zeroPkAttrs = Except.error SchemaExc.primaryKeyNotFound ∧
    ¬ ∃ k, modelMetaclassNew "Pair" twoPkAttrs =
      Except.error (SchemaExc.duplicatePrimaryKey k) := by
  refine ⟨rfl, rfl, ?_⟩
  rintro ⟨k, hk⟩
  have hk2 : (Except.error SchemaExc.primaryKeyNotFound :
      Except SchemaExc NewClassResult) = Except.error (SchemaExc.duplicatePrimaryKey k) := hk
  simp at hk2

/-- C4: the specified property is that the insert template is
`insert into (backticked columns) value (placeholders)` with every
identifier in exactly one pair of backticks and no spaces after the commas.
On the source the metaclass never reaches template construction (see C1),
and the line-193 expression itself wraps the already-backticked joined
field list in one more pair of backticks and joins placeholders with a
comma and a space, so it differs from the claimed text. -/
theorem c4_insert_template_malformed :
    buildInsert "users" ["email", "admin"] "id" =
      "insert into `users` (``email`, `admin``, `id`) value (?, ?, ?)" ∧
    buildInsert "users" ["email", "admin"] "id" ≠
      "insert into `users` (`email`,`admin`,`id`) value (?,?,?)" ∧
    modelMetaclassNew "User" userAttrs = Except.error SchemaExc.primaryKeyNotFound :=
  ⟨rfl, by decide, rfl⟩

/-- C5: the specified property is that `find(pk)` fetches one row by
primary key and returns a wrapped instance or an absent result. On the
source `find` always raises TypeError: line 279 formats a two-specifier
string with four values (and would then call `select` without its required
`args` parameter), for every template, key name and key value. -/
theorem c5_find_raises_type_error (selectTpl pkName : String) (pk : Value) :
    findRun selectTpl pkName pk = Except.error Exc.typeErrorNotAllConverted := rfl

/-- A driver whose statement fails and whose rollback call also raises. -/
def dRollbackFails : Driver :=
  ⟨Option.none, Except.error (Exc.statementError 1), Option.none,
    some (Exc.operationalError 2)⟩

/-- C6 counterexample: with autocommit off, a failing statement followed by
a failing rollback. Exactly one rollback call appears in the trace, but the
propagated exception is the rollback one, not the original statement error,
so the original does NOT propagate unchanged as claimed. -/
theorem c6_rollback_failure_masks_original :
    executeRun "delete from `t` where `id`=?" [Value.str "x"] false dRollbackFails =
      ([Ev.acquire, Ev.beginTx,
        Ev.stmt "delete from `t` where `id`=[\x27x\x27]" Option.none,
        Ev.rollback, Ev.release], Except.error (Exc.operationalError 2)) ∧
    dRollbackFails.stmtRes = Except.error (Exc.statementError 1) ∧
    Exc.operationalError 2 ≠ Exc.statementError 1 :=
  ⟨rfl, rfl, by decide⟩

/-- C6 amended: when `execute` runs with autocommit off, the transaction
begins, and the statement step fails, the trace holds exactly one rollback
call; the original exception propagates unchanged when the rollback call
itself succeeds, and otherwise the rollback exception propagates in its
place. -/
theorem c6_rollback_once_original_propagates (sql : String) (args : List Value)
    (d : Driver) (e : Exc) (text : String)
    (hb : d.beginExc = Option.none)
    (hf : pyFormatList (replaceQ sql) args = Except.ok text)
    (hs : d.stmtRes = Except.error e) :
    (executeRun sql args false d).1 =
      [Ev.acquire, Ev.beginTx, Ev.stmt text Option.none, Ev.rollback, Ev.release] ∧
    (d.rollbackExc = Option.none → (executeRun sql args false d).2 = Except.error e) ∧
    (∀ r2, d.rollbackExc = some r2 → (executeRun sql args false d).2 = Except.error r2) := by
  obtain ⟨b, s, c, r⟩ := d
  simp only [Driver.beginExc] at hb
  simp only [Driver.stmtRes] at hs
  subst hb hs
  cases r <;> simp [executeRun, tryBody, hf, Driver.rollbackExc]

/-- C6 witness: concrete run of the amended theorem, on a driver whose
statement raises and whose rollback succeeds. -/
theorem c6_rollback_once_original_propagates_witness :
    pyFormatList (replaceQ "delete from `t` where `id`=?") [Value.str "x"] =
      Except.ok "delete from `t` where `id`=[\x27x\x27]" ∧
    ((executeRun "delete from `t` where `id`=?" [Value.str "x"] false
        ⟨Option.none, Except.error (Exc.statementError 1), Option.none, Option.none⟩).1 =
      [Ev.acquire, Ev.beginTx,
        Ev.stmt "delete from `t` where `id`=[\x27x\x27]" Option.none,
        Ev.rollback, Ev.release] ∧
      (executeRun "delete from `t` where `id`=?" [Value.str "x"] false
        ⟨Option.none, Except.error (Exc.statementError 1), Option.none, Option.none⟩).2 =
        Except.error (Exc.statementError 1)) := by
  have h := c6_rollback_once_original_propagates "delete from `t` where `id`=?"
    [Value.str "x"]
    ⟨Option.none, Except.error (Exc.statementError 1), Option.none, Option.none⟩
    (Exc.statementError 1) "delete from `t` where `id`=[\x27x\x27]" rfl rfl rfl
  exact ⟨rfl, h.1, h.2.1 rfl⟩

/-- C7 counterexample: a select statement with one placeholder and two
arguments. No error of any kind is raised: the connection is acquired and
the mismatched argument list is handed to the driver unchecked, refuting
the claim that an argument mismatch raises before any connection is
acquired. -/
theorem c7_mismatch_not_rejected :
    countSpecifiers (replaceQ "select `email` from `users` where `id`=?") = 1 ∧
    selectRun "select `email` from `users` where `id`=?"
        (some [Value.str "a", Value.str "b"]) Option.none selOk =
      ([Ev.acquire,
        Ev.stmt "select `email` from `users` where `id`=%s"
          (some [Value.str "a", Value.str "b"]),
        Ev.release], Except.ok []) :=
  ⟨rfl, rfl⟩

/-- C7 amended: no argument-count validation exists and nothing is raised
before acquisition. `select` always issues acquire, then the bound
statement, then release, for any argument list; `execute` with a
zero-specifier translated template sends the text unchanged and silently
drops the arguments (no error at all); and whenever the translated template
holds two or more specifiers, `execute` fails with the formatting TypeError
AFTER acquiring and releasing the connection — never with a dedicated
argument-mismatch error. -/
theorem c7_no_argument_count_check
    (sqlS : String) (argsS : Option (List Value)) (size : Option Nat) (dS : SelectDriver)
    (sql0 : String) (args0 : List Value) (d0 : Driver) (m : Nat)
    (sqlE : String) (argsE : List Value) (dE : Driver)
    (h0 : countSpecifiers (replaceQ sql0) = 0)
    (hd0 : d0.stmtRes = Except.ok m)
    (h2 : 2 ≤ countSpecifiers (replaceQ sqlE)) :
    (selectRun sqlS argsS size dS).1 =
      [Ev.acquire, Ev.stmt (replaceQ sqlS) (some (argsS.getD [])), Ev.release] ∧
    executeRun sql0 args0 true d0 =
      ([Ev.acquire, Ev.stmt (replaceQ sql0) Option.none, Ev.release], Except.ok m) ∧
    executeRun sqlE argsE true dE =
      ([Ev.acquire, Ev.release], Except.error Exc.typeErrorNotEnoughArgs) := by
  refine ⟨?_, ?_, ?_⟩
  · obtain ⟨res⟩ := dS
    cases res <;> simp [selectRun]
  · simp [executeRun, tryBody, pyFormatList, h0, hd0]
  · have h1 : countSpecifiers (replaceQ sqlE) ≠ 1 := by omega
    have h0b : countSpecifiers (replaceQ sqlE) ≠ 0 := by omega
    simp [executeRun, tryBody, pyFormatList, h0b, h1]

/-- C7 witness: concrete run of the amended theorem on a placeholder-free
delete statement carrying a stale argument (sent, no error, argument
dropped) and on an update template with two placeholders (TypeError after
acquisition). -/
theorem c7_no_argument_count_check_witness :
    countSpecifiers (replaceQ "delete from `users`") = 0 ∧
    dOk.stmtRes = Except.ok 1 ∧
    2 ≤ countSpecifiers (replaceQ "update `users` set `email`=? where `id`=?") ∧
    ((selectRun "select `email` from `users`" Option.none Option.none selOk).1 =
      [Ev.acquire, Ev.stmt "select `email` from `users`" (some []), Ev.release] ∧
    executeRun "delete from `users`" [Value.str "stale"] true dOk =
      ([Ev.acquire, Ev.stmt "delete from `users`" Option.none, Ev.release], Except.ok 1) ∧
    executeRun "update `users` set `email`=? where `id`=?" [Value.str "x"] true dOk =
      ([Ev.acquire, Ev.release], Except.error Exc.typeErrorNotEnoughArgs)) :=
  ⟨rfl, rfl, by decide,
    c7_no_argument_count_check "select `email` from `users`" Option.none Option.none selOk
      "delete from `users`" [Value.str "stale"] dOk 1
      "update `users` set `email`=? where `id`=?" [Value.str "x"] dOk
      rfl rfl (by decide)⟩

/-- Setting a key and reading it back in the instance dictionary. -/
theorem alistGet_dictSet (inst : Inst) (key : String) (v : Value) :
    alistGet (dictSet inst key v) key = some v := by
  induction inst with
  | nil => simp [dictSet, alistGet]
  | cons hd tl ih =>
    obtain ⟨k0, v0⟩ := hd
    by_cases h : k0 = key <;> simp [dictSet, alistGet, h, ih]

/-- On a fresh key the three-argument getattr yields `None`. -/
theorem pyGetattrOrNone_of_fresh (inst : Inst) (key : String)
    (h : alistGet inst key = Option.none) : pyGetattrOrNone inst key = Value.null := by
  simp [pyGetattrOrNone, modelGetattr, h]

/-- On a stored key the three-argument getattr yields the stored value. -/
theorem pyGetattrOrNone_of_found (inst : Inst) (key : String) (v : Value)
    (h : alistGet inst key = some v) : pyGetattrOrNone inst key = v := by
  simp [pyGetattrOrNone, modelGetattr, h]

/-- A field whose callable default produces `None`. -/
def nullCallableField : Field :=
  StringField Option.none false (some (DefaultVal.callable (fun _ => Value.null))) "varchar(100)"

/-- Mappings declaring only that field. -/
def mpToken : Mappings := [("token", nullCallableField)]

/-- C8 counterexample: for a callable default that returns `None`, the
first call invokes the callable (count 1) and stores `None`; the second
call, on the updated instance, invokes the callable AGAIN (count 1, not 0),
so the callable runs twice across the two calls, refuting the claimed
at-most-once invocation and the claimed return of a cached value. -/
theorem c8_null_callable_default_reresolved :
    getValueOrDefault mpToken [] "token" =
      Except.ok ([("token", Value.null)], Value.null, 1) ∧
    getValueOrDefault mpToken [("token", Value.null)] "token" =
      Except.ok ([("token", Value.null)], Value.null, 1) :=
  ⟨rfl, rfl⟩

/-- C8 amended: on a freshly constructed instance with no value for a
declared key, when the first `getValueOrDefault` call resolves the default
to a value other than `None`, that value is written onto the instance and
the second call returns the identical cached value with no further
resolution (zero callable invocations); a default resolving to `None` is
not effectively cached and its resolution path runs again on every call. -/
theorem c8_nonnull_default_cached (mp : Mappings) (inst : Inst) (key : String)
    (field : Field) (inst1 : Inst) (v1 : Value) (c1 : Nat)
    (hfresh : alistGet inst key = Option.none)
    (hfield : alistGet mp key = some field)
    (hrun : getValueOrDefault mp inst key = Except.ok (inst1, v1, c1))
    (hnn : v1 ≠ Value.null) :
    alistGet inst1 key = some v1 ∧
    getValueOrDefault mp inst1 key = Except.ok (inst1, v1, 0) := by
  have hval := pyGetattrOrNone_of_fresh inst key hfresh
  rw [getValueOrDefault, hval] at hrun
  simp only [if_pos rfl, hfield] at hrun
  cases hd : field.default with
  | none =>
    rw [hd] at hrun
    simp at hrun
    exact absurd hrun.2.1.symm hnn
  | some dv =>
    cases dv with
    | lit v =>
      rw [hd] at hrun
      simp at hrun
      obtain ⟨h1, h2, h3⟩ := hrun
      subst h1 h2
      have hget := alistGet_dictSet inst key v
      refine ⟨hget, ?_⟩
      rw [getValueOrDefault, pyGetattrOrNone_of_found _ _ _ hget, if_neg hnn]
    | callable f =>
      rw [hd] at hrun
      simp at hrun
      obtain ⟨h1, h2, h3⟩ := hrun
      subst h1 h2
      have hget := alistGet_dictSet inst key (f ())
      refine ⟨hget, ?_⟩
      rw [getValueOrDefault, pyGetattrOrNone_of_found _ _ _ hget, if_neg hnn]

/-- Mappings of the specified User fields used by the instance-level
properties. -/
def mpUser : Mappings := [("email", emailField), ("admin", adminField)]

/-- C8 witness: concrete run of the amended theorem on the `admin` field,
whose literal default `False` is cached by the first call and returned
unchanged by the second. -/
theorem c8_nonnull_default_cached_witness :
    getValueOrDefault mpUser [] "admin" =
      Except.ok ([("admin", Value.bool false)], Value.bool false, 0) ∧
    (alistGet [("admin", Value.bool false)] "admin" = some (Value.bool false) ∧
      getValueOrDefault mpUser [("admin", Value.bool false)] "admin" =
        Except.ok ([("admin", Value.bool false)], Value.bool false, 0)) :=
  ⟨rfl, c8_nonnull_default_cached mpUser [] "admin" adminField
    [("admin", Value.bool false)] (Value.bool false) 0 rfl rfl rfl (by decide)⟩

/-- C9 counterexample: `email` is declared with no default source, and on a
fresh instance `getValueOrDefault` returns `None`, not the type-appropriate
empty string the claim requires. -/
theorem c9_absent_default_returns_null :
    getValueOrDefault mpUser [] "email" = Except.ok ([], Value.null, 0) ∧
    Value.null ≠ Value.str "" :=
  ⟨rfl, by decide⟩

/-- C9 amended: on a fresh instance, a zero-argument callable default is
invoked and its result returned (and stored), a literal default is returned
verbatim (and stored), and an absent default source yields `None` — the
value stays unresolved rather than becoming a type-appropriate empty
value. -/
theorem c9_default_resolution_cases (mp : Mappings) (inst : Inst) (key : String)
    (field : Field)
    (hfresh : alistGet inst key = Option.none)
    (hfield : alistGet mp key = some field) :
    (field.default = Option.none →
      getValueOrDefault mp inst key = Except.ok (inst, Value.null, 0)) ∧
    (∀ v, field.default = some (DefaultVal.lit v) →
      getValueOrDefault mp inst key = Except.ok (dictSet inst key v, v, 0)) ∧
    (∀ f, field.default = some (DefaultVal.callable f) →
      getValueOrDefault mp inst key = Except.ok (dictSet inst key (f ()), f (), 1)) := by
  have hval := pyGetattrOrNone_of_fresh inst key hfresh
  refine ⟨fun hd => ?_, fun v hd => ?_, fun f hd => ?_⟩ <;>
    rw [getValueOrDefault, hval] <;> simp [hfield, hd]

/-- C9 witness: concrete run of the amended theorem on the `email` field
(no default source), observing the `None` result. -/
theorem c9_default_resolution_cases_witness :
    alistGet ([] : Inst) "email" = Option.none ∧
    alistGet mpUser "email" = some emailField ∧
    getValueOrDefault mpUser [] "email" = Except.ok ([], Value.null, 0) :=
  ⟨rfl, rfl,
    (c9_default_resolution_cases mpUser [] "email" emailField rfl rfl).1 rfl⟩

/-- C10: for every instance and every key with no stored value, `getValue`
returns `None` and cannot raise, while direct attribute access on the same
key raises the AttributeError of `Model.__getattr__`; `getValue` converts
that error into a `None` result through the three-argument getattr. -/
theorem c10_getValue_null_on_missing (inst : Inst) (key : String)
    (h : alistGet inst key = Option.none) :
    getValue inst key = Value.null ∧
    modelGetattr inst key =
      Except.error ("\x27Model\x27 object has no attribute \x27" ++ key ++ "\x27") := by
  constructor
  · simp [getValue, pyGetattrOrNone, modelGetattr, h]
  · simp [modelGetattr, h]

/-- C10 witness: concrete fresh instance and undeclared key. -/
theorem c10_getValue_null_on_missing_witness :
    alistGet ([] : Inst) "nick" = Option.none ∧
    (getValue [] "nick" = Value.null ∧
      modelGetattr [] "nick" =
        Except.error "\x27Model\x27 object has no attribute \x27nick\x27") :=
  ⟨rfl, c10_getValue_null_on_missing [] "nick" rfl⟩

end Orm
